import Mathlib

/-!
Verification of the pilot-webhook discovery-response mutation engine
(src/webhook.go).

The Go code is shallowly embedded as executable Lean definitions:

* listener and cluster documents become explicit structures;
* the Go interface-typed filter configuration payloads become sum types;
* Go runtime panics (out-of-range slice indexing in classifyListener and in
  the listeners handler, the failed type assertion in updateHTTPListener)
  are modelled by an Option result (none = panic) or the Outcome.panicked
  handler outcome;
* the per-request HTTP handlers become pure functions from the request data
  (path parameter, body-read result) to an Outcome value; JSON
  encoding/decoding is performed by the external encoding/json library, so
  it is passed in as an abstract function argument.
-/

/-! ### Constants (src/webhook.go lines 45-49)

The two separators are the single-character Go strings "~" and "_"; they are
modelled as characters. -/

def serviceNodeSeparator : Char := '~'

def listenerNameSeparator : Char := '_'

def AuthZFilterName : String := "envoy.ext_authz"

def AuthZClusterName : String := "calico.dikastes"

def DikastesSocketDir : String := "/var/run/dikastes"

/-- Name of the HTTP connection manager filter, from the istio envoy v1
library (v1.HTTPConnectionManager) imported by the webhook. -/
def HTTPConnectionManager : String := "http_connection_manager"

/-! ### Go strings.Split for a single-character separator -/

/-- Split a character list at every occurrence of sep.  The result always has
at least one element (Go strings.Split never returns an empty slice). -/
def splitOnChar (sep : Char) : List Char → List (List Char)
  | [] => [[]]
  | c :: cs =>
    match splitOnChar sep cs with
    | [] => [[c]]
    | w :: ws => if c = sep then [] :: w :: ws else (c :: w) :: ws

/-- Go strings.Split(s, sep) for the single-character separators used by the
webhook. -/
def goSplit (s : String) (sep : Char) : List String :=
  (splitOnChar sep s.toList).map fun w => String.mk w

/-! ### Data model

Fields of the istio envoy v1 structures that the webhook never reads or
writes (addresses, SSL contexts, codec options, ...) are represented by a
single uninterpreted rest field, so that the no-op claims really say the
whole entry is unchanged. -/

structure GrpcClusterConfig where
  clusterName : String
deriving DecidableEq

/-- AuthzFilterConfig from src/webhook.go lines 74-77.  In Go the zero value
of StatPrefix is the empty string and the field is serialized with
omitempty, so an empty stat-prefix is omitted on the wire. -/
structure AuthzFilterConfig where
  statPrefix : String
  grpcCluster : Option GrpcClusterConfig
deriving DecidableEq

/-- Payload of an HTTP-level sub-filter (v1.HTTPFilter.Config): either the
authz config the webhook itself constructs, or a payload it never
inspects. -/
inductive HTTPFilterPayload where
  | authz (c : AuthzFilterConfig)
  | other (raw : String)
deriving DecidableEq

/-- v1.HTTPFilter: an entry of the HTTP connection manager sub-filter
chain. -/
structure HTTPFilter where
  type : String
  name : String
  config : Option HTTPFilterPayload
deriving DecidableEq

/-- v1.HTTPFilterConfig: the connection-manager configuration; the webhook
only touches its Filters sequence. -/
structure HTTPFilterConfig where
  filters : List HTTPFilter
  rest : String
deriving DecidableEq

/-- v1.NetworkFilterConfig, a Go interface: either an HTTP connection
manager config, the webhook's own authz config, or some other
implementation the webhook never inspects. -/
inductive NetworkFilterConfig where
  | httpCfg (c : HTTPFilterConfig)
  | authz (c : AuthzFilterConfig)
  | other (raw : String)
deriving DecidableEq

/-- v1.NetworkFilter: an entry of a listener's top-level filter chain.  A
Go nil interface in the Config field is modelled as none. -/
structure NetworkFilter where
  type : String
  name : String
  config : Option NetworkFilterConfig
deriving DecidableEq

/-- v1.Listener: the webhook reads Name and reads/writes Filters. -/
structure Listener where
  name : String
  filters : List NetworkFilter
  rest : String
deriving DecidableEq

/-- Direction enum, src/webhook.go lines 59-65. -/
inductive Direction where
  | INBOUND
  | OUTBOUND
  | VIRTUAL
deriving DecidableEq

/-- Protocol enum, src/webhook.go lines 67-72.  HTTP is the Go zero value
(iota = 0). -/
inductive Protocol where
  | HTTP
  | TCP
deriving DecidableEq

/-! ### classifyListener (src/webhook.go lines 226-242) -/

/-- classifyListener.  Returns none where the Go code would panic: the
unguarded index c[1] when the split of a non-virtual name yields fewer than
two tokens.  When the first token is neither http nor tcp, the Go variable
proto keeps its zero value HTTP and is returned as such. -/
def classifyListener (listener : Listener) (ip : String) : Option (Direction × Protocol) :=
  if listener.name = "virtual" then
    some (Direction.VIRTUAL, Protocol.HTTP)
  else
    match goSplit listener.name listenerNameSeparator with
    | c0 :: c1 :: _ =>
      let proto : Protocol :=
        if c0 = "http" then Protocol.HTTP
        else if c0 = "tcp" then Protocol.TCP
        else Protocol.HTTP
      if c1 = ip then some (Direction.INBOUND, proto)
      else some (Direction.OUTBOUND, proto)
    | _ => none

/-! ### updateHTTPListener (src/webhook.go lines 245-268) -/

/-- The authz HTTP sub-filter built at src/webhook.go lines 258-262.  Note
the Go composite literal sets only GrpcCluster, so StatPrefix is the zero
value empty string. -/
def authzHttpFilter : HTTPFilter :=
  { type := "decoder",
    name := AuthZFilterName,
    config := some (HTTPFilterPayload.authz
      { statPrefix := "",
        grpcCluster := some { clusterName := AuthZClusterName } }) }

/-- The loop at src/webhook.go lines 248-253: the config of the first filter
whose name is HTTPConnectionManager (breaking at the first match), or none
when no filter matches or the matching filter's config is a nil
interface. -/
def findHTTPManagerConfig : List NetworkFilter → Option NetworkFilterConfig
  | [] => none
  | f :: fs =>
    if f.name = HTTPConnectionManager then f.config
    else findHTTPManagerConfig fs

/-- The Go code mutates the found config through its pointer; in the value
model this re-points the first HTTPConnectionManager-named filter at the
new config. -/
def updateFirstHCM : List NetworkFilter → NetworkFilterConfig → List NetworkFilter
  | [], _ => []
  | f :: fs, cfg =>
    if f.name = HTTPConnectionManager then { f with config := some cfg } :: fs
    else f :: updateFirstHCM fs cfg

/-- updateHTTPListener.  When no connection-manager config is found the Go
code logs an error and leaves the listener unmodified; when the found config
is not a v1.HTTPFilterConfig the Go type assertion panics (none). -/
def updateHTTPListener (listener : Listener) : Option Listener :=
  match findHTTPManagerConfig listener.filters with
  | some (NetworkFilterConfig.httpCfg hc) =>
    some { listener with
           filters := updateFirstHCM listener.filters
             (NetworkFilterConfig.httpCfg { hc with filters := authzHttpFilter :: hc.filters }) }
  | some _ => none
  | none => some listener

/-! ### updateTCPListener (src/webhook.go lines 271-282) -/

/-- The authz network filter built at src/webhook.go lines 273-278: here the
stat-prefix is set, to the filter's own name. -/
def authzTCPFilter : NetworkFilter :=
  { type := "read",
    name := AuthZFilterName,
    config := some (NetworkFilterConfig.authz
      { statPrefix := AuthZFilterName,
        grpcCluster := some { clusterName := AuthZClusterName } }) }

def updateTCPListener (listener : Listener) : Listener :=
  { listener with filters := authzTCPFilter :: listener.filters }

/-! ### updateListener (src/webhook.go lines 206-223) -/

/-- updateListener: skip OUTBOUND and VIRTUAL listeners; switch on the
protocol for INBOUND ones.  A panic in classifyListener or in
updateHTTPListener propagates. -/
def updateListener (listener : Listener) (ip : String) : Option Listener :=
  match classifyListener listener ip with
  | none => none
  | some (Direction.OUTBOUND, _) => some listener
  | some (Direction.VIRTUAL, _) => some listener
  | some (Direction.INBOUND, Protocol.HTTP) => updateHTTPListener listener
  | some (Direction.INBOUND, Protocol.TCP) => some (updateTCPListener listener)

/-! ### Cluster model and the clusters append (src/webhook.go lines 285-324) -/

structure Host where
  url : String
deriving DecidableEq

structure DefaultCBPriority where
  maxPendingRequests : Nat
  maxRequests : Nat
deriving DecidableEq

structure CircuitBreaker where
  default : DefaultCBPriority
deriving DecidableEq

/-- v1.Cluster; only the fields the webhook sets are named, the rest field
stands for everything else. -/
structure Cluster where
  name : String
  connectTimeoutMs : Nat
  type : String
  circuitBreaker : Option CircuitBreaker
  lbType : String
  features : String
  hosts : List Host
  rest : String
deriving DecidableEq

def ClusterTypeStatic : String := "static"

def LbTypeRoundRobin : String := "round_robin"

def ClusterFeatureHTTP2 : String := "http2"

/-- The cluster literal appended at src/webhook.go lines 303-316. -/
def dikastesCluster : Cluster :=
  { name := AuthZClusterName,
    connectTimeoutMs := 5000,
    type := ClusterTypeStatic,
    circuitBreaker := some { default := { maxPendingRequests := 10000, maxRequests := 10000 } },
    lbType := LbTypeRoundRobin,
    features := ClusterFeatureHTTP2,
    hosts := [{ url := "unix://" ++ DikastesSocketDir ++ "/dikastes.sock" }],
    rest := "" }

/-- The conditional append at src/webhook.go lines 302-317. -/
def augmentClusters (cs : List Cluster) (setCluster : Bool) : List Cluster :=
  if setCluster then cs ++ [dikastesCluster] else cs

/-! ### Handlers (src/webhook.go lines 168-203 and 285-324) -/

/-- What a handler invocation did to the response. nothingWritten means the
handler returned without writing anything, so the transport sends its
default success status with an empty body.  panicked models a Go runtime
panic inside the handler. -/
inductive Outcome where
  | ok (body : String)
  | clientError (msg : String)
  | internalError (msg : String)
  | nothingWritten
  | panicked
deriving DecidableEq

/-- The loop at src/webhook.go lines 192-194: update every listener in the
document; a panic on any entry aborts the whole request. -/
def updateAll : List Listener → String → Option (List Listener)
  | [], _ => some []
  | l :: ls, ip =>
    match updateListener l ip, updateAll ls ip with
    | some l', some ls' => some (l' :: ls')
    | _, _ => none

/-- The listeners handler (src/webhook.go lines 168-203).  decode/encode
stand for json.Unmarshal/json.Marshal of the listener document; bodyRead is
the result of reading the request body (none = read error).  Both tokens of
the serviceNode split are bound before the role check, exactly as ip is
assigned from c[1] on line 172 before the comparison on line 173, so a
single-token serviceNode panics regardless of role.  In the non-sidecar
branch io.Copy echoes the body and its error, if any, is ignored. -/
def listeners (decode : String → Option (List Listener))
    (encode : List Listener → Option String)
    (serviceNode : String) (bodyRead : Option String) : Outcome :=
  match goSplit serviceNode serviceNodeSeparator with
  | nodeType :: ip :: _ =>
    if nodeType = "sidecar" then
      match bodyRead with
      | none => Outcome.internalError "failed to read request"
      | some body =>
        match decode body with
        | none => Outcome.clientError "could not parse request JSON"
        | some ls =>
          match updateAll ls ip with
          | none => Outcome.panicked
          | some ls' =>
            match encode ls' with
            | none => Outcome.internalError "internal error"
            | some out => Outcome.ok out
    else
      match bodyRead with
      | some body => Outcome.ok body
      | none => Outcome.ok ""
  | _ => Outcome.panicked

/-- The clusters handler (src/webhook.go lines 285-324).  On a body-read
failure it logs and returns without writing any response (lines 290-294);
likewise on a re-encode failure (lines 318-322).  A decode failure writes a
400 client error.  The serviceNode path parameter is never consulted. -/
def clusters (decode : String → Option (List Cluster))
    (encode : List Cluster → Option String)
    (setCluster : Bool) (bodyRead : Option String) : Outcome :=
  match bodyRead with
  | none => Outcome.nothingWritten
  | some body =>
    match decode body with
    | none => Outcome.clientError "could not parse request JSON"
    | some cs =>
      match encode (augmentClusters cs setCluster) with
      | none => Outcome.nothingWritten
      | some out => Outcome.ok out

/-! ### Concrete documents used by witnesses and counterexamples -/

/-- A cors sub-filter like the one in the repository's mainline test. -/
def corsFilter : HTTPFilter := { type := "", name := "cors", config := none }

def hcH : HTTPFilterConfig := { filters := [corsFilter], rest := "" }

def hcmFilter : NetworkFilter :=
  { type := "", name := HTTPConnectionManager,
    config := some (NetworkFilterConfig.httpCfg hcH) }

/-- The inbound HTTP listener of the repository's mainline test. -/
def lH : Listener := { name := "http_3.4.5.6_43", filters := [hcmFilter], rest := "" }

/-- The inbound TCP listener of the repository's TCP test. -/
def lT : Listener :=
  { name := "tcp_1.2.3.4_76",
    filters := [{ type := "", name := "tcp_proxy", config := none }],
    rest := "" }

/-- An inbound listener whose protocol token is neither http nor tcp but
which carries an HTTP connection manager. -/
def lOther : Listener :=
  { name := "mongo_1.2.3.4_27017", filters := [hcmFilter], rest := "" }

/-- An outbound HTTP listener (address token differs from the self
address). -/
def lOut : Listener := { name := "http_10.65.8.9_443", filters := [], rest := "" }

/-- A listener whose name has no separator at all. -/
def lShort : Listener := { name := "short", filters := [], rest := "" }

/-! ### Helper lemmas -/

/-- A name that splits into at least two tokens is not the virtual
sentinel. -/
theorem name_ne_virtual (s c0 c1 : String) (rest : List String)
    (h : goSplit s '_' = c0 :: c1 :: rest) : s ≠ "virtual" := by
  intro hv
  rw [hv] at h
  rw [show goSplit "virtual" '_' = ["virtual"] from by decide] at h
  simp at h

theorem classify_http_inbound (l : Listener) (ip : String) (rest : List String)
    (h : goSplit l.name '_' = "http" :: ip :: rest) :
    classifyListener l ip = some (Direction.INBOUND, Protocol.HTTP) := by
  have hnv := name_ne_virtual l.name _ _ _ h
  simp [classifyListener, listenerNameSeparator, hnv, h]

theorem classify_tcp_inbound (l : Listener) (ip : String) (rest : List String)
    (h : goSplit l.name '_' = "tcp" :: ip :: rest) :
    classifyListener l ip = some (Direction.INBOUND, Protocol.TCP) := by
  have hnv := name_ne_virtual l.name _ _ _ h
  simp [classifyListener, listenerNameSeparator, hnv, h]

theorem classify_other_inbound (l : Listener) (ip c0 : String) (rest : List String)
    (h : goSplit l.name '_' = c0 :: ip :: rest)
    (h0 : c0 ≠ "http") (h1 : c0 ≠ "tcp") :
    classifyListener l ip = some (Direction.INBOUND, Protocol.HTTP) := by
  have hnv := name_ne_virtual l.name _ _ _ h
  simp [classifyListener, listenerNameSeparator, hnv, h, h0, h1]

/-- Re-pointing the first connection-manager filter makes the subsequent
lookup return the new config, provided a lookup succeeded before. -/
theorem findHCM_update (fs : List NetworkFilter) (c₀ cfg : NetworkFilterConfig)
    (h : findHTTPManagerConfig fs = some c₀) :
    findHTTPManagerConfig (updateFirstHCM fs cfg) = some cfg := by
  induction fs with
  | nil => simp [findHTTPManagerConfig] at h
  | cons f fs ih =>
    by_cases hf : f.name = HTTPConnectionManager
    · simp [findHTTPManagerConfig, updateFirstHCM, hf]
    · simp only [findHTTPManagerConfig, updateFirstHCM, hf, if_neg, ite_false] at h ⊢
      exact ih h

theorem updateListener_http (l : Listener) (ip : String) (rest : List String)
    (hc : HTTPFilterConfig)
    (hname : goSplit l.name '_' = "http" :: ip :: rest)
    (hfind : findHTTPManagerConfig l.filters = some (NetworkFilterConfig.httpCfg hc)) :
    updateListener l ip =
      some { l with
             filters := updateFirstHCM l.filters
               (NetworkFilterConfig.httpCfg { hc with filters := authzHttpFilter :: hc.filters }) } := by
  simp [updateListener, classify_http_inbound l ip rest hname, updateHTTPListener, hfind]

theorem updateListener_tcp (l : Listener) (ip : String) (rest : List String)
    (hname : goSplit l.name '_' = "tcp" :: ip :: rest) :
    updateListener l ip = some { l with filters := authzTCPFilter :: l.filters } := by
  simp [updateListener, classify_tcp_inbound l ip rest hname, updateTCPListener]

/-- An all-defaults virtual listener. -/
def lVirtual : Listener := { name := "virtual", filters := [], rest := "" }

/-! ### Claims -/

/-- Claim C1: for every listener entry whose name's first underscore token is
http and whose second token equals the proxy's self address, and whose
filter chain yields an HTTP connection manager configuration, updateListener
leaves the connection manager's sub-filter sequence equal to the
authorization filter followed by the original sub-filters: length
original + 1, the authz filter (named envoy.ext_authz, referencing the
cluster calico.dikastes) at index 0, the original sub-filters following in
order. -/
theorem C1_http_inbound_prepends_authz (l : Listener) (ip : String) (rest : List String)
    (hc : HTTPFilterConfig)
    (hname : goSplit l.name '_' = "http" :: ip :: rest)
    (hfind : findHTTPManagerConfig l.filters = some (NetworkFilterConfig.httpCfg hc)) :
    ∃ l', updateListener l ip = some l' ∧
      findHTTPManagerConfig l'.filters =
        some (NetworkFilterConfig.httpCfg { hc with filters := authzHttpFilter :: hc.filters }) ∧
      (authzHttpFilter :: hc.filters).length = hc.filters.length + 1 ∧
      (authzHttpFilter :: hc.filters).head? = some authzHttpFilter ∧
      (authzHttpFilter :: hc.filters).tail = hc.filters ∧
      authzHttpFilter.name = AuthZFilterName ∧
      authzHttpFilter.config = some (HTTPFilterPayload.authz
        { statPrefix := "", grpcCluster := some { clusterName := AuthZClusterName } }) := by
  refine ⟨_, updateListener_http l ip rest hc hname hfind, ?_, rfl, rfl, rfl, rfl, rfl⟩
  exact findHCM_update l.filters _ _ hfind

/-- Witness for C1 at the repository's mainline test listener. -/
theorem C1_witness :
    goSplit lH.name '_' = "http" :: "3.4.5.6" :: ["43"] ∧
    findHTTPManagerConfig lH.filters = some (NetworkFilterConfig.httpCfg hcH) ∧
    (∃ l', updateListener lH "3.4.5.6" = some l' ∧
      findHTTPManagerConfig l'.filters =
        some (NetworkFilterConfig.httpCfg { hcH with filters := authzHttpFilter :: hcH.filters }) ∧
      (authzHttpFilter :: hcH.filters).length = hcH.filters.length + 1 ∧
      (authzHttpFilter :: hcH.filters).head? = some authzHttpFilter ∧
      (authzHttpFilter :: hcH.filters).tail = hcH.filters ∧
      authzHttpFilter.name = AuthZFilterName ∧
      authzHttpFilter.config = some (HTTPFilterPayload.authz
        { statPrefix := "", grpcCluster := some { clusterName := AuthZClusterName } })) :=
  ⟨by decide, by decide,
   C1_http_inbound_prepends_authz lH "3.4.5.6" ["43"] hcH (by decide) (by decide)⟩

/-- Claim C2: for every listener entry whose name's first underscore token is
tcp and whose second token equals the proxy's self address, updateListener
leaves the top-level filter sequence equal to the authorization network
filter followed by the original filters: length original + 1, the authz
filter at index 0 with stat-prefix equal to its own name envoy.ext_authz and
referencing the cluster calico.dikastes. -/
theorem C2_tcp_inbound_prepends_authz (l : Listener) (ip : String) (rest : List String)
    (hname : goSplit l.name '_' = "tcp" :: ip :: rest) :
    updateListener l ip = some { l with filters := authzTCPFilter :: l.filters } ∧
    (authzTCPFilter :: l.filters).length = l.filters.length + 1 ∧
    (authzTCPFilter :: l.filters).head? = some authzTCPFilter ∧
    authzTCPFilter.name = AuthZFilterName ∧
    authzTCPFilter.config = some (NetworkFilterConfig.authz
      { statPrefix := AuthZFilterName,
        grpcCluster := some { clusterName := AuthZClusterName } }) :=
  ⟨updateListener_tcp l ip rest hname, rfl, rfl, rfl, rfl⟩

/-- Witness for C2 at the repository's TCP test listener. -/
theorem C2_witness :
    goSplit lT.name '_' = "tcp" :: "1.2.3.4" :: ["76"] ∧
    (updateListener lT "1.2.3.4" = some { lT with filters := authzTCPFilter :: lT.filters } ∧
      (authzTCPFilter :: lT.filters).length = lT.filters.length + 1 ∧
      (authzTCPFilter :: lT.filters).head? = some authzTCPFilter ∧
      authzTCPFilter.name = AuthZFilterName ∧
      authzTCPFilter.config = some (NetworkFilterConfig.authz
        { statPrefix := AuthZFilterName,
          grpcCluster := some { clusterName := AuthZClusterName } })) :=
  ⟨by decide, C2_tcp_inbound_prepends_authz lT "1.2.3.4" ["76"] (by decide)⟩

/-- Claim C3: for every listener entry that classifyListener classifies
OUTBOUND or VIRTUAL, updateListener is a no-op: the entry, every field
included, is returned unchanged. -/
theorem C3_outbound_virtual_noop (l : Listener) (ip : String) (d : Direction) (p : Protocol)
    (hcls : classifyListener l ip = some (d, p))
    (hd : d = Direction.OUTBOUND ∨ d = Direction.VIRTUAL) :
    updateListener l ip = some l := by
  cases hd with
  | inl h => subst h; simp [updateListener, hcls]
  | inr h => subst h; simp [updateListener, hcls]

/-- Witness for C3 at an outbound and at a virtual listener. -/
theorem C3_witness :
    classifyListener lOut "1.2.3.4" = some (Direction.OUTBOUND, Protocol.HTTP) ∧
    updateListener lOut "1.2.3.4" = some lOut ∧
    classifyListener lVirtual "1.2.3.4" = some (Direction.VIRTUAL, Protocol.HTTP) ∧
    updateListener lVirtual "1.2.3.4" = some lVirtual :=
  ⟨by decide,
   C3_outbound_virtual_noop lOut "1.2.3.4" Direction.OUTBOUND Protocol.HTTP (by decide) (Or.inl rfl),
   by decide,
   C3_outbound_virtual_noop lVirtual "1.2.3.4" Direction.VIRTUAL Protocol.HTTP (by decide) (Or.inr rfl)⟩

/-- Claim C4 counterexample: a listener named mongo_1.2.3.4_27017 (first
token neither http nor tcp) whose second token equals the self address and
which carries an HTTP connection manager is NOT left unmodified: the HTTP
authorization filter is inserted, because the Go Protocol variable keeps its
zero value HTTP for unknown tokens. -/
theorem C4_counterexample :
    updateListener lOther "1.2.3.4" =
      some { lOther with filters := [{ hcmFilter with
        config := some (NetworkFilterConfig.httpCfg
          { filters := [authzHttpFilter, corsFilter], rest := "" }) }] } ∧
    updateListener lOther "1.2.3.4" ≠ some lOther := by
  exact ⟨by decide, by decide⟩

/-- Claim C4 as amended: a listener entry whose name's first underscore token
is neither http nor tcp but whose second token equals the self address is
handled exactly like an HTTP inbound listener (the classifier's Protocol
zero value), so it is left unmodified only when no usable connection-manager
config is present, and the HTTP authorization filter is inserted when one
is. -/
theorem C4_amended_other_token_is_http (l : Listener) (ip c0 : String) (rest : List String)
    (hname : goSplit l.name '_' = c0 :: ip :: rest)
    (h0 : c0 ≠ "http") (h1 : c0 ≠ "tcp") :
    updateListener l ip = updateHTTPListener l := by
  simp [updateListener, classify_other_inbound l ip c0 rest hname h0 h1]

/-- Witness for the amended C4 at the mongo-named listener. -/
theorem C4_witness :
    goSplit lOther.name '_' = "mongo" :: "1.2.3.4" :: ["27017"] ∧
    ("mongo" : String) ≠ "http" ∧ ("mongo" : String) ≠ "tcp" ∧
    updateListener lOther "1.2.3.4" = updateHTTPListener lOther :=
  ⟨by decide, by decide, by decide,
   C4_amended_other_token_is_http lOther "1.2.3.4" "mongo" ["27017"]
     (by decide) (by decide) (by decide)⟩

/-- Claim C5, code bug: a non-virtual listener name with fewer than two
underscore tokens makes classifyListener index past the end of the split
(a Go runtime panic), so the whole request fails instead of the single entry
being skipped. -/
theorem C5_code_bug_short_name_panics :
    classifyListener lShort "1.2.3.4" = none ∧
    updateListener lShort "1.2.3.4" = none ∧
    listeners (fun _ => some [lShort]) (fun _ => some "")
      "sidecar~1.2.3.4~other~items" (some "irrelevant") = Outcome.panicked := by
  exact ⟨by decide, by decide, by decide⟩

/-- Claim C6: with the augmentation flag true the clusters handler appends
exactly the dikastes cluster entry at the end, leaving the pre-existing
entries unchanged and in order; with the flag false the sequence is
unchanged; and the appended entry carries exactly the advertised name,
timeout, type, circuit breaker thresholds, load-balancer policy, HTTP/2
feature and Unix-domain-socket host. -/
theorem C6_cluster_augmentation (cs : List Cluster) :
    augmentClusters cs true = cs ++ [dikastesCluster] ∧
    augmentClusters cs false = cs ∧
    dikastesCluster.name = AuthZClusterName ∧
    dikastesCluster.connectTimeoutMs = 5000 ∧
    dikastesCluster.type = ClusterTypeStatic ∧
    dikastesCluster.circuitBreaker =
      some { default := { maxPendingRequests := 10000, maxRequests := 10000 } } ∧
    dikastesCluster.lbType = LbTypeRoundRobin ∧
    dikastesCluster.features = ClusterFeatureHTTP2 ∧
    dikastesCluster.hosts = [{ url := "unix:///var/run/dikastes/dikastes.sock" }] :=
  ⟨rfl, rfl, rfl, rfl, rfl, rfl, rfl, rfl, by decide⟩

/-- Claim C7 counterexample: a listener-list request whose self-descriptor is
the single token ingress (first tilde token not sidecar) is not echoed: the
handler indexes the second tilde token before the role check and panics. -/
theorem C7_counterexample :
    listeners (fun _ => none) (fun _ => none) "ingress" (some "garbage") = Outcome.panicked ∧
    listeners (fun _ => none) (fun _ => none) "ingress" (some "garbage") ≠ Outcome.ok "garbage" := by
  exact ⟨by decide, by decide⟩

/-- Claim C7 as amended: for every listener-list request whose
self-descriptor splits into at least two tilde tokens with the first not
sidecar, and for every body (decodable or not: the decoder is universally
quantified and never applied), the handler copies the body to the response
verbatim with success status. -/
theorem C7_amended_nonsidecar_echo (decode : String → Option (List Listener))
    (encode : List Listener → Option String)
    (sn nodeType ip : String) (rest : List String) (body : String)
    (hsn : goSplit sn '~' = nodeType :: ip :: rest)
    (hrole : nodeType ≠ "sidecar") :
    listeners decode encode sn (some body) = Outcome.ok body := by
  simp [listeners, serviceNodeSeparator, hsn, hrole]

/-- Witness for the amended C7 with an undecodable body. -/
theorem C7_witness :
    goSplit "ingress~3.4.5.6~other~items" '~' = "ingress" :: "3.4.5.6" :: ["other", "items"] ∧
    ("ingress" : String) ≠ "sidecar" ∧
    listeners (fun _ => none) (fun _ => none) "ingress~3.4.5.6~other~items"
      (some "not valid JSON") = Outcome.ok "not valid JSON" :=
  ⟨by decide, by decide,
   C7_amended_nonsidecar_echo (fun _ => none) (fun _ => none) "ingress~3.4.5.6~other~items"
     "ingress" "3.4.5.6" ["other", "items"] "not valid JSON" (by decide) (by decide)⟩

/-- Claim C8, code bug: on a body-read failure the listeners handler does
write the 500 internal error, but the clusters handler logs and returns
without writing any response at all (the transport then sends its default
success status with an empty body), so the cluster-list endpoint does not
fail closed as claimed. -/
theorem C8_code_bug_clusters_read_failure :
    clusters (fun _ => none) (fun _ => none) true none = Outcome.nothingWritten ∧
    clusters (fun _ => none) (fun _ => none) false none = Outcome.nothingWritten ∧
    Outcome.nothingWritten ≠ Outcome.internalError "failed to read request" ∧
    listeners (fun _ => none) (fun _ => none) "sidecar~1.2.3.4~other~items" none =
      Outcome.internalError "failed to read request" := by
  exact ⟨by decide, by decide, by decide, by decide⟩

/-- Claim C9: the filter insertion engine is not idempotent.  Applying
updateListener twice to a qualifying inbound HTTP listener (connection
manager present) yields a sub-filter sequence with two authorization filters
in front, length original + 2; applying it twice to an inbound TCP listener
yields a top-level filter sequence with two authorization filters in front,
length original + 2. -/
theorem C9_not_idempotent (l t : Listener) (ip jp : String) :
    (∀ rest hc, goSplit l.name '_' = "http" :: ip :: rest →
      findHTTPManagerConfig l.filters = some (NetworkFilterConfig.httpCfg hc) →
      ∃ l₂, (updateListener l ip).bind (fun x => updateListener x ip) = some l₂ ∧
        findHTTPManagerConfig l₂.filters = some (NetworkFilterConfig.httpCfg
          { hc with filters := authzHttpFilter :: authzHttpFilter :: hc.filters }) ∧
        (authzHttpFilter :: authzHttpFilter :: hc.filters).length = hc.filters.length + 2) ∧
    (∀ rest, goSplit t.name '_' = "tcp" :: jp :: rest →
      (updateListener t jp).bind (fun x => updateListener x jp) =
        some { t with filters := authzTCPFilter :: authzTCPFilter :: t.filters } ∧
      (authzTCPFilter :: authzTCPFilter :: t.filters).length = t.filters.length + 2) := by
  constructor
  · intro rest hc hname hfind
    have h1 := updateListener_http l ip rest hc hname hfind
    have hfind₁ := findHCM_update l.filters (NetworkFilterConfig.httpCfg hc)
      (NetworkFilterConfig.httpCfg { hc with filters := authzHttpFilter :: hc.filters }) hfind
    have h2 := updateListener_http { l with filters := updateFirstHCM l.filters (NetworkFilterConfig.httpCfg { hc with filters := authzHttpFilter :: hc.filters }) } ip rest { hc with filters := authzHttpFilter :: hc.filters } hname hfind₁
    refine ⟨{ l with filters := updateFirstHCM (updateFirstHCM l.filters (NetworkFilterConfig.httpCfg { hc with filters := authzHttpFilter :: hc.filters })) (NetworkFilterConfig.httpCfg { hc with filters := authzHttpFilter :: authzHttpFilter :: hc.filters }) }, ?_, ?_, rfl⟩
    · rw [h1]
      exact h2
    · exact findHCM_update _ (NetworkFilterConfig.httpCfg { hc with filters := authzHttpFilter :: hc.filters }) _ hfind₁
  · intro rest hname
    have h1 := updateListener_tcp t jp rest hname
    have h2 := updateListener_tcp { t with filters := authzTCPFilter :: t.filters } jp rest hname
    refine ⟨?_, rfl⟩
    rw [h1]
    exact h2

/-- Witness for C9 at the mainline HTTP and TCP test listeners. -/
theorem C9_witness :
    (∃ l₂, (updateListener lH "3.4.5.6").bind (fun x => updateListener x "3.4.5.6") = some l₂ ∧
      findHTTPManagerConfig l₂.filters = some (NetworkFilterConfig.httpCfg
        { hcH with filters := authzHttpFilter :: authzHttpFilter :: hcH.filters }) ∧
      (authzHttpFilter :: authzHttpFilter :: hcH.filters).length = hcH.filters.length + 2) ∧
    ((updateListener lT "1.2.3.4").bind (fun x => updateListener x "1.2.3.4") =
      some { lT with filters := authzTCPFilter :: authzTCPFilter :: lT.filters } ∧
      (authzTCPFilter :: authzTCPFilter :: lT.filters).length = lT.filters.length + 2) :=
  ⟨(C9_not_idempotent lH lT "3.4.5.6" "1.2.3.4").1 ["43"] hcH (by decide) (by decide),
   (C9_not_idempotent lH lT "3.4.5.6" "1.2.3.4").2 ["76"] (by decide)⟩

/-- Claim C10 counterexample: the HTTP (decoder) variant of the
authorization filter does not carry a stat-prefix: its AuthzFilterConfig has
the empty string there (and the field is serialized with omitempty, so it is
absent on the wire), unlike the TCP variant. -/
theorem C10_counterexample :
    authzHttpFilter.config = some (HTTPFilterPayload.authz
      { statPrefix := "", grpcCluster := some { clusterName := AuthZClusterName } }) ∧
    ("" : String) ≠ AuthZFilterName := by
  exact ⟨rfl, by decide⟩

/-- Claim C10 as amended: both variants of the authorization filter
reference the backing cluster calico.dikastes; the TCP (network) variant
carries stat-prefix envoy.ext_authz, while the HTTP (decoder) variant leaves
the stat-prefix empty. -/
theorem C10_amended_cluster_ref :
    authzTCPFilter.config = some (NetworkFilterConfig.authz
      { statPrefix := AuthZFilterName,
        grpcCluster := some { clusterName := AuthZClusterName } }) ∧
    authzHttpFilter.config = some (HTTPFilterPayload.authz
      { statPrefix := "",
        grpcCluster := some { clusterName := AuthZClusterName } }) ∧
    authzTCPFilter.name = AuthZFilterName ∧ authzHttpFilter.name = AuthZFilterName :=
  ⟨rfl, rfl, rfl, rfl⟩
